import Mathlib

/-!
# Verification of the birix-sql-api HTTP/MySQL gateway

Shallow embedding of the two Express handlers files (`src/index.js`,
single-database mode, and the unnamed multi-database variant) of the
repository `mi4gang/birix-sql-api-`.

The embedding models:
* JavaScript string primitives used by the guard (`trim`, `toLowerCase`,
  `startsWith`, `parseInt`) over Lean `String`/`List Char`;
* each Express handler as a pure function from its inputs and a database
  pool oracle to an HTTP response together with the list of queries it
  issued against the pool (the observable needed for the "issues zero
  queries" properties);
* the pool as an oracle `String → List JSParam → Except String (List Row)`
  mirroring `mysql2`'s promise interface: an SQL text plus bound
  parameters, answered by rows or an error message.
-/

/-- A JSON value as assembled by the handlers before serialization.
`undef` models JavaScript `undefined` appearing as an object field. -/
inductive Json where
  | str (s : String)
  | int (n : Int)
  | bool (b : Bool)
  | arr (xs : List Json)
  | obj (fs : List (String × Json))
  | undef
deriving Repr

/-- A value bound as a mysql2 query parameter.  The handlers only ever pass
results of `parseInt` (an integer or `NaN`); the `str` constructor exists so
that "a raw string is never passed" is a non-vacuous statement. -/
inductive JSParam where
  | int (n : Int)
  | nan
  | str (s : String)
deriving Repr, DecidableEq

/-- A result row: a JavaScript object, field name to value. -/
abbrev Row := List (String × Json)

/-- One query issued against the pool: the SQL text and the bound values. -/
abbrev Issued := String × List JSParam

/-- The connection pool as an oracle: `pool.query(sql, params)` either
resolves with rows or rejects with an error message. -/
abbrev Pool := String → List JSParam → Except String (List Row)

/-- An HTTP response: status code plus the JSON object body
(field order as built in the source). -/
structure Resp where
  status : Nat
  body : List (String × Json)

/-- Look up a field of a response body, `none` when the field is absent. -/
def Resp.find (r : Resp) (k : String) : Option Json :=
  (r.body.find? (fun f => f.1 == k)).map (fun f => f.2)

/-- `Object.values(row)[0]`: first value of a row object,
`undefined` for an empty object. -/
def rowFirstVal (r : Row) : Json :=
  (r.map (fun f => f.2)).headD Json.undef

/-- `row.k`: property access on a row object, `undefined` when absent. -/
def objGet (r : Row) (k : String) : Json :=
  ((r.find? (fun f => f.1 == k)).map (fun f => f.2)).getD Json.undef

/-- The catch-all error envelope
`res.status(500).json({ success: false, error: error.message })`. -/
def err500 (e : String) : Resp :=
  ⟨500, [("success", Json.bool false), ("error", Json.str e)]⟩

/-! ## JavaScript string primitives -/

/-- The whitespace class trimmed by `String.prototype.trim` and skipped by
`parseInt` (ASCII whitespace plus the common Unicode space characters). -/
def jsIsSpace (c : Char) : Bool :=
  c == ' ' || c == '\t' || c == '\n' || c == '\r' || c == '\x0b' ||
  c == '\x0c' || c == '\xa0' || c == '\u2028' || c == '\u2029' || c == '\ufeff'

/-- `s.trim()`: strip leading and trailing whitespace. -/
def jsTrim (s : String) : String :=
  String.mk (((s.data.dropWhile jsIsSpace).reverse.dropWhile jsIsSpace).reverse)

/-- `s.toLowerCase()` on the alphabet the guard inspects
(ASCII case folding). -/
def jsToLower (s : String) : String :=
  String.mk (s.data.map Char.toLower)

/-- `s.startsWith(p)`. -/
def jsStartsWith (s p : String) : Bool :=
  List.isPrefixOf p.data s.data

/-- Numeric value of a decimal digit character. -/
def digitVal (c : Char) : Nat := c.toNat - '0'.toNat

/-- Hexadecimal digit test. -/
def isHexDigit (c : Char) : Bool :=
  c.isDigit || ('a' ≤ c && c ≤ 'f') || ('A' ≤ c && c ≤ 'F')

/-- Numeric value of a hexadecimal digit character. -/
def hexVal (c : Char) : Nat :=
  if c.isDigit then digitVal c
  else if 'a' ≤ c && c ≤ 'f' then c.toNat - 'a'.toNat + 10
  else c.toNat - 'A'.toNat + 10

/-- Accumulate the longest leading run of digits (per `p`/`v`/`base`):
`none` when no digit was consumed, mirroring `parseInt` returning `NaN`. -/
def parseDigits (p : Char → Bool) (v : Char → Nat) (base : Nat) :
    List Char → Option Nat → Option Nat
  | [], acc => acc
  | c :: cs, acc =>
    if p c then parseDigits p v base cs (some (acc.getD 0 * base + v c))
    else acc

/-- Attach the sign to a parse result; a digitless parse is `NaN`. -/
def toParam (sign : Int) : Option Nat → JSParam
  | none => JSParam.nan
  | some n => JSParam.int (sign * n)

/-- Does the character list open with `0x` or `0X`? -/
def hexOpener (cs : List Char) : Bool :=
  match cs with
  | c1 :: c2 :: _ => c1 == '0' && (c2 == 'x' || c2 == 'X')
  | _ => false

/-- `parseInt` after whitespace and sign: a `0x`/`0X` opener selects
hexadecimal, otherwise the longest leading decimal digit run is taken;
no digits consumed means `NaN`. -/
def parseUnsigned (sign : Int) (cs : List Char) : JSParam :=
  if hexOpener cs then
    toParam sign (parseDigits isHexDigit hexVal 16 (cs.drop 2) none)
  else
    toParam sign (parseDigits Char.isDigit digitVal 10 cs none)

/-- `parseInt` on a character list: skip whitespace, optional sign,
then the unsigned parse. -/
def jsParseIntChars (cs : List Char) : JSParam :=
  match cs.dropWhile jsIsSpace with
  | [] => parseUnsigned 1 []
  | c :: rest =>
    if c == '-' then parseUnsigned (-1) rest
    else if c == '+' then parseUnsigned 1 rest
    else parseUnsigned 1 (c :: rest)

/-- JavaScript `parseInt(s)` (radix inferred): an integer or `NaN`. -/
def jsParseInt (s : String) : JSParam := jsParseIntChars s.data

/-- `parseInt(req.query.x || dflt)`: a missing parameter (`none`) and the
empty string are falsy, so the numeric default is used (and
`parseInt(number)` goes through its decimal string form); any other string
is handed to `parseInt` as-is. -/
def effParam (q : Option String) (dflt : Nat) : JSParam :=
  jsParseInt (match q with
    | none => toString dflt
    | some s => if s == "" then toString dflt else s)

/-! ## SQL text built by the handlers (template-literal interpolation) -/

/-- `` `SELECT * FROM ${tableName} LIMIT ? OFFSET ?` `` -/
def qSelectSQL (t : String) : String :=
  "SELECT * FROM " ++ t ++ " LIMIT ? OFFSET ?"

/-- `` `SELECT COUNT(*) as total FROM ${tableName}` `` -/
def qCountSQL (t : String) : String :=
  "SELECT COUNT(*) as total FROM " ++ t

/-- `` `SELECT * FROM ${table} LIMIT ?` `` of the fixed-table shortcuts. -/
def qLimitSQL (t : String) : String :=
  "SELECT * FROM " ++ t ++ " LIMIT ?"

/-- `` `DESCRIBE ${tableName}` `` -/
def qDescribeSQL (t : String) : String :=
  "DESCRIBE " ++ t

/-- Multi-database variant: backtick-quoted qualified select. -/
def qDbSelectSQL (db t : String) : String :=
  "SELECT * FROM `" ++ db ++ "`.`" ++ t ++ "` LIMIT ? OFFSET ?"

/-- Multi-database variant: backtick-quoted qualified count. -/
def qDbCountSQL (db t : String) : String :=
  "SELECT COUNT(*) as total FROM `" ++ db ++ "`.`" ++ t ++ "`"

/-- `` `SHOW TABLES FROM \`${dbName}\`` `` -/
def qShowTablesSQL (db : String) : String :=
  "SHOW TABLES FROM `" ++ db ++ "`"

/-- Multi-database variant: backtick-quoted qualified describe. -/
def qDbDescribeSQL (db t : String) : String :=
  "DESCRIBE `" ++ db ++ "`.`" ++ t ++ "`"

/-! ## Handlers (src/index.js, single-database mode) -/

/-- `GET /health`: `now` stands for `new Date().toISOString()`. -/
def healthHandler (now : String) (pool : Pool) : Resp × List Issued :=
  match pool "SELECT 1" [] with
  | .ok _ =>
    (⟨200, [("status", Json.str "ok"),
            ("message", Json.str "Database connection successful"),
            ("timestamp", Json.str now)]⟩, [("SELECT 1", [])])
  | .error e =>
    (⟨500, [("status", Json.str "error"),
            ("message", Json.str "Database connection failed"),
            ("error", Json.str e)]⟩, [("SELECT 1", [])])

/-- `GET /tables`. -/
def tablesHandler (pool : Pool) : Resp × List Issued :=
  match pool "SHOW TABLES" [] with
  | .ok tables =>
    let tableNames := tables.map rowFirstVal
    (⟨200, [("success", Json.bool true),
            ("count", Json.int tableNames.length),
            ("tables", Json.arr tableNames)]⟩, [("SHOW TABLES", [])])
  | .error e => (err500 e, [("SHOW TABLES", [])])

/-- `GET /table/:tableName/structure`. -/
def structureHandler (tableName : String) (pool : Pool) : Resp × List Issued :=
  match pool (qDescribeSQL tableName) [] with
  | .ok columns =>
    (⟨200, [("success", Json.bool true),
            ("table", Json.str tableName),
            ("columns", Json.arr (columns.map Json.obj))]⟩,
     [(qDescribeSQL tableName, [])])
  | .error e => (err500 e, [(qDescribeSQL tableName, [])])

/-- `GET /table/:tableName?limit&offset`: page query then count query;
`countResult[0].total` on an empty count result is a caught `TypeError`. -/
def tableDataHandler (tableName : String) (limitQ offsetQ : Option String)
    (pool : Pool) : Resp × List Issued :=
  let l := effParam limitQ 100
  let o := effParam offsetQ 0
  match pool (qSelectSQL tableName) [l, o] with
  | .error e => (err500 e, [(qSelectSQL tableName, [l, o])])
  | .ok rows =>
    match pool (qCountSQL tableName) [] with
    | .error e =>
      (err500 e, [(qSelectSQL tableName, [l, o]), (qCountSQL tableName, [])])
    | .ok countResult =>
      match countResult with
      | [] =>
        (err500 "Cannot read properties of undefined (reading 'total')",
         [(qSelectSQL tableName, [l, o]), (qCountSQL tableName, [])])
      | cr0 :: _ =>
        (⟨200, [("success", Json.bool true),
                ("table", Json.str tableName),
                ("total", objGet cr0 "total"),
                ("count", Json.int rows.length),
                ("data", Json.arr (rows.map Json.obj))]⟩,
         [(qSelectSQL tableName, [l, o]), (qCountSQL tableName, [])])

/-- The `query` field of the `POST /query` body: a string, absent
(`undefined`, on which `.trim()` throws a `TypeError`), or a non-string
value (`.trim` is not a function). -/
inductive QueryField where
  | str (s : String)
  | absent
  | nonString

/-- `POST /query`: the read-only guard
`!query.trim().toLowerCase().startsWith('select')` rejects with 400 before
any query; a passing query text is forwarded verbatim; `.trim()` on a
missing or non-string `query` throws inside the `try` and is caught. -/
def queryHandler (q : QueryField) (pool : Pool) : Resp × List Issued :=
  match q with
  | .absent =>
    (err500 "Cannot read properties of undefined (reading 'trim')", [])
  | .nonString => (err500 "query.trim is not a function", [])
  | .str query =>
    if jsStartsWith (jsToLower (jsTrim query)) "select" then
      match pool query [] with
      | .ok rows =>
        (⟨200, [("success", Json.bool true),
                ("count", Json.int rows.length),
                ("data", Json.arr (rows.map Json.obj))]⟩, [(query, [])])
      | .error e => (err500 e, [(query, [])])
    else
      (⟨400, [("success", Json.bool false),
              ("error", Json.str "Only SELECT queries are allowed")]⟩, [])

/-- The common body of `GET /deals`, `/companies`, `/contacts`, `/leads`:
a single bounded select from the hardcoded table. -/
def fixedTableHandler (table : String) (limitQ : Option String)
    (pool : Pool) : Resp × List Issued :=
  let l := effParam limitQ 100
  match pool (qLimitSQL table) [l] with
  | .ok rows =>
    (⟨200, [("success", Json.bool true),
            ("count", Json.int rows.length),
            ("data", Json.arr (rows.map Json.obj))]⟩, [(qLimitSQL table, [l])])
  | .error e => (err500 e, [(qLimitSQL table, [l])])

/-- `GET /deals?limit`. -/
def dealsHandler (limitQ : Option String) (pool : Pool) : Resp × List Issued :=
  fixedTableHandler "deal" limitQ pool

/-- `GET /companies?limit`. -/
def companiesHandler (limitQ : Option String) (pool : Pool) : Resp × List Issued :=
  fixedTableHandler "company" limitQ pool

/-- `GET /contacts?limit`. -/
def contactsHandler (limitQ : Option String) (pool : Pool) : Resp × List Issued :=
  fixedTableHandler "contact" limitQ pool

/-- `GET /leads?limit`. -/
def leadsHandler (limitQ : Option String) (pool : Pool) : Resp × List Issued :=
  fixedTableHandler "lead" limitQ pool

/-! ## Handlers (unnamed multi-database variant) -/

/-- `GET /databases`. -/
def databasesHandler (pool : Pool) : Resp × List Issued :=
  match pool "SHOW DATABASES" [] with
  | .ok databases =>
    let dbNames := databases.map rowFirstVal
    (⟨200, [("success", Json.bool true),
            ("count", Json.int dbNames.length),
            ("databases", Json.arr dbNames)]⟩, [("SHOW DATABASES", [])])
  | .error e => (err500 e, [("SHOW DATABASES", [])])

/-- `GET /database/:dbName/tables`. -/
def dbTablesHandler (dbName : String) (pool : Pool) : Resp × List Issued :=
  match pool (qShowTablesSQL dbName) [] with
  | .ok tables =>
    let tableNames := tables.map rowFirstVal
    (⟨200, [("success", Json.bool true),
            ("database", Json.str dbName),
            ("count", Json.int tableNames.length),
            ("tables", Json.arr tableNames)]⟩, [(qShowTablesSQL dbName, [])])
  | .error e => (err500 e, [(qShowTablesSQL dbName, [])])

/-- `GET /database/:dbName/table/:tableName?limit&offset`. -/
def dbTableDataHandler (dbName tableName : String)
    (limitQ offsetQ : Option String) (pool : Pool) : Resp × List Issued :=
  let l := effParam limitQ 100
  let o := effParam offsetQ 0
  match pool (qDbSelectSQL dbName tableName) [l, o] with
  | .error e => (err500 e, [(qDbSelectSQL dbName tableName, [l, o])])
  | .ok rows =>
    match pool (qDbCountSQL dbName tableName) [] with
    | .error e =>
      (err500 e, [(qDbSelectSQL dbName tableName, [l, o]),
                  (qDbCountSQL dbName tableName, [])])
    | .ok countResult =>
      match countResult with
      | [] =>
        (err500 "Cannot read properties of undefined (reading 'total')",
         [(qDbSelectSQL dbName tableName, [l, o]),
          (qDbCountSQL dbName tableName, [])])
      | cr0 :: _ =>
        (⟨200, [("success", Json.bool true),
                ("database", Json.str dbName),
                ("table", Json.str tableName),
                ("total", objGet cr0 "total"),
                ("count", Json.int rows.length),
                ("data", Json.arr (rows.map Json.obj))]⟩,
         [(qDbSelectSQL dbName tableName, [l, o]),
          (qDbCountSQL dbName tableName, [])])

/-- `GET /database/:dbName/table/:tableName/structure`. -/
def dbStructureHandler (dbName tableName : String) (pool : Pool) :
    Resp × List Issued :=
  match pool (qDbDescribeSQL dbName tableName) [] with
  | .ok columns =>
    (⟨200, [("success", Json.bool true),
            ("database", Json.str dbName),
            ("table", Json.str tableName),
            ("columns", Json.arr (columns.map Json.obj))]⟩,
     [(qDbDescribeSQL dbName tableName, [])])
  | .error e => (err500 e, [(qDbDescribeSQL dbName tableName, [])])

/-! ## Semantic pools for the refinement/functional claims -/

/-- MySQL's reply to the bound-parameter page query: negative bounds are a
syntax error, a `NaN` parameter is rejected by the driver, otherwise the
page `drop offset / take limit` of the table in natural order. -/
def pageFor (rows : List Row) (ps : List JSParam) : Except String (List Row) :=
  match ps with
  | [JSParam.int l, JSParam.int o] =>
    if l < 0 || o < 0 then .error "You have an error in your SQL syntax"
    else .ok ((rows.drop o.toNat).take l.toNat)
  | _ => .error "Incorrect arguments to mysqld_stmt_execute"

/-- MySQL's reply to the single-bound `LIMIT ?` query of the shortcuts. -/
def takeFor (rows : List Row) (ps : List JSParam) : Except String (List Row) :=
  match ps with
  | [JSParam.int l] =>
    if l < 0 then .error "You have an error in your SQL syntax"
    else .ok (rows.take l.toNat)
  | _ => .error "Incorrect arguments to mysqld_stmt_execute"

/-- A pool oracle over one table `t` holding `rows`: it answers exactly the
three SQL texts the single-database handlers build for `t`, and raises the
MySQL unknown-table error on everything else. -/
def tablePool (t : String) (rows : List Row) : Pool := fun sql ps =>
  if sql = qSelectSQL t then pageFor rows ps
  else if sql = qCountSQL t then .ok [[("total", Json.int rows.length)]]
  else if sql = qLimitSQL t then takeFor rows ps
  else .error "ER_NO_SUCH_TABLE"

/-- A pool that rejects every query with the fixed message `e`
(connectivity loss, permission failure, ...). -/
def errPool (e : String) : Pool := fun _ _ => .error e

/-- A pool that answers every query with the fixed row list `rs`. -/
def okPool (rs : List Row) : Pool := fun _ _ => .ok rs

/-- A five-row sample table used to instantiate witnesses. -/
def sampleRows : List Row :=
  [[("id", Json.int 1)], [("id", Json.int 2)], [("id", Json.int 3)],
   [("id", Json.int 4)], [("id", Json.int 5)]]

/-- The envelope invariant "the `count` field equals the length of the
array stored under field `k`". -/
def countMatchesField (r : Resp) (k : String) : Prop :=
  ∃ xs, Resp.find r k = some (Json.arr xs) ∧
    Resp.find r "count" = some (Json.int xs.length)

/-- The observations under which a fixed-table shortcut must agree with the
paged table-data operation at offset 0 on the same table `t` (holding
`rows`): same data, same count, same success flag, no total field, and a
single `LIMIT ?` query instead of the select/count pair. -/
def shortcutMatchesPaged
    (h : Option String → Pool → Resp × List Issued) (t : String) : Prop :=
  ∀ (rows : List Row) (lq : Option String),
    Resp.find (h lq (tablePool t rows)).1 "data" =
      Resp.find (tableDataHandler t lq none (tablePool t rows)).1 "data" ∧
    Resp.find (h lq (tablePool t rows)).1 "count" =
      Resp.find (tableDataHandler t lq none (tablePool t rows)).1 "count" ∧
    Resp.find (h lq (tablePool t rows)).1 "success" =
      Resp.find (tableDataHandler t lq none (tablePool t rows)).1 "success" ∧
    Resp.find (h lq (tablePool t rows)).1 "total" = none ∧
    (h lq (tablePool t rows)).2 = [(qLimitSQL t, [effParam lq 100])]

/-! ## The spec's identifier allow-list (absent from the source) -/

/-- Modelled from the spec: the identifier allow-list pattern of §4.1 —
"letters, digits, underscore only, non-empty, bounded length" (bound taken
as MySQL's 64-character identifier maximum).  No such validation exists
anywhere in the source; this definition transcribes the spec's words so the
gap can be exhibited. -/
def specIdentOk (s : String) : Bool :=
  !s.isEmpty && decide (s.length ≤ 64) &&
    s.data.all (fun c => c.isAlpha || c.isDigit || c == '_')

/-! ## Helper lemmas: the SQL texts of distinct shapes are distinct -/

lemma qSelectSQL_length (t : String) : (qSelectSQL t).length = t.length + 31 := by
  have h1 : ("SELECT * FROM " : String).length = 14 := rfl
  have h2 : (" LIMIT ? OFFSET ?" : String).length = 17 := rfl
  simp [qSelectSQL, String.length_append, h1, h2]
  omega

lemma qCountSQL_length (t : String) : (qCountSQL t).length = t.length + 30 := by
  have h1 : ("SELECT COUNT(*) as total FROM " : String).length = 30 := rfl
  simp [qCountSQL, String.length_append, h1]
  omega

lemma qLimitSQL_length (t : String) : (qLimitSQL t).length = t.length + 22 := by
  have h1 : ("SELECT * FROM " : String).length = 14 := rfl
  have h2 : (" LIMIT ?" : String).length = 8 := rfl
  simp [qLimitSQL, String.length_append, h1, h2]
  omega

lemma qCountSQL_ne_qSelectSQL (t : String) : qCountSQL t ≠ qSelectSQL t := by
  intro h
  have := congrArg String.length h
  rw [qCountSQL_length, qSelectSQL_length] at this
  omega

lemma qLimitSQL_ne_qSelectSQL (t : String) : qLimitSQL t ≠ qSelectSQL t := by
  intro h
  have := congrArg String.length h
  rw [qLimitSQL_length, qSelectSQL_length] at this
  omega

lemma qLimitSQL_ne_qCountSQL (t : String) : qLimitSQL t ≠ qCountSQL t := by
  intro h
  have := congrArg String.length h
  rw [qLimitSQL_length, qCountSQL_length] at this
  omega

/-! ## Helper lemmas: evaluating the one-table pool -/

lemma tablePool_select (t : String) (rows : List Row) (ps : List JSParam) :
    tablePool t rows (qSelectSQL t) ps = pageFor rows ps := by
  simp [tablePool]

lemma tablePool_count (t : String) (rows : List Row) :
    tablePool t rows (qCountSQL t) [] = .ok [[("total", Json.int rows.length)]] := by
  unfold tablePool
  rw [if_neg (qCountSQL_ne_qSelectSQL t), if_pos rfl]

lemma tablePool_limit (t : String) (rows : List Row) (ps : List JSParam) :
    tablePool t rows (qLimitSQL t) ps = takeFor rows ps := by
  unfold tablePool
  rw [if_neg (qLimitSQL_ne_qSelectSQL t), if_neg (qLimitSQL_ne_qCountSQL t),
    if_pos rfl]

/-! ## Helper lemmas: `parseInt` parsing shape and truncation -/

lemma toParam_shape (sign : Int) (o : Option Nat) :
    toParam sign o = JSParam.nan ∨ ∃ n, toParam sign o = JSParam.int n := by
  cases o with
  | none => exact Or.inl rfl
  | some n => exact Or.inr ⟨sign * n, rfl⟩

lemma parseUnsigned_shape (sign : Int) (cs : List Char) :
    parseUnsigned sign cs = JSParam.nan ∨
      ∃ n, parseUnsigned sign cs = JSParam.int n := by
  unfold parseUnsigned
  by_cases h : hexOpener cs
  · rw [if_pos h]; exact toParam_shape _ _
  · rw [if_neg h]; exact toParam_shape _ _

lemma jsParseIntChars_shape (cs : List Char) :
    jsParseIntChars cs = JSParam.nan ∨
      ∃ n, jsParseIntChars cs = JSParam.int n := by
  unfold jsParseIntChars
  cases h : cs.dropWhile jsIsSpace with
  | nil => exact parseUnsigned_shape 1 []
  | cons c rest =>
    by_cases h1 : c == '-'
    · simp only [h1, if_pos]; exact parseUnsigned_shape _ _
    · by_cases h2 : c == '+' <;>
        simp only [h1, h2, if_pos, if_neg, Bool.false_eq_true] <;>
        exact parseUnsigned_shape _ _

lemma jsParseInt_not_str (s t : String) : jsParseInt s ≠ JSParam.str t := by
  unfold jsParseInt
  rcases jsParseIntChars_shape s.data with h | ⟨n, h⟩ <;> rw [h] <;> intro hc <;>
    cases hc

lemma effParam_not_str (q : Option String) (dflt : Nat) (t : String) :
    effParam q dflt ≠ JSParam.str t := by
  unfold effParam
  exact jsParseInt_not_str _ t

lemma parseDigits_append_stop (p : Char → Bool) (v : Char → Nat) (base : Nat)
    (c : Char) (hc : p c = false) (xs ys : List Char) (acc : Option Nat) :
    parseDigits p v base (xs ++ c :: ys) acc = parseDigits p v base xs acc := by
  induction xs generalizing acc with
  | nil => simp [parseDigits, hc]
  | cons d ds ih =>
    by_cases hd : p d <;> simp [parseDigits, hd, ih]

lemma hexOpener_append_dot (xs ys : List Char) :
    hexOpener (xs ++ '.' :: ys) = hexOpener xs := by
  match xs with
  | [] => cases ys <;> rfl
  | [c] =>
    show (c == '0' && ('.' == 'x' || '.' == 'X')) = hexOpener [c]
    rw [show (('.' == 'x' || '.' == 'X')) = false from rfl, Bool.and_false]
    rfl
  | c1 :: c2 :: rest => rfl

lemma parseUnsigned_append_dot (sign : Int) (xs ys : List Char) :
    parseUnsigned sign (xs ++ '.' :: ys) = parseUnsigned sign xs := by
  unfold parseUnsigned
  rw [hexOpener_append_dot]
  by_cases h : hexOpener xs
  · rw [if_pos h, if_pos h]
    match xs with
    | c1 :: c2 :: rest =>
      show toParam sign (parseDigits isHexDigit hexVal 16 (rest ++ '.' :: ys) none)
        = toParam sign (parseDigits isHexDigit hexVal 16 rest none)
      rw [parseDigits_append_stop isHexDigit hexVal 16 '.' rfl]
  · rw [if_neg h, if_neg h,
      parseDigits_append_stop Char.isDigit digitVal 10 '.' rfl]

lemma jsParseIntChars_append_dot (cs ys : List Char) :
    jsParseIntChars (cs ++ '.' :: ys) = jsParseIntChars cs := by
  unfold jsParseIntChars
  rw [List.dropWhile_append]
  cases h : cs.dropWhile jsIsSpace with
  | nil =>
    show (match ('.' :: ys).dropWhile jsIsSpace with
      | [] => parseUnsigned 1 []
      | c :: rest =>
        if c == '-' then parseUnsigned (-1) rest
        else if c == '+' then parseUnsigned 1 rest
        else parseUnsigned 1 (c :: rest)) = parseUnsigned 1 []
    rw [show ('.' :: ys).dropWhile jsIsSpace = '.' :: ys from rfl]
    show parseUnsigned 1 ('.' :: ys) = parseUnsigned 1 []
    exact parseUnsigned_append_dot 1 [] ys
  | cons d ds =>
    show (match d :: (ds ++ '.' :: ys) with
      | [] => parseUnsigned 1 []
      | c :: rest =>
        if c == '-' then parseUnsigned (-1) rest
        else if c == '+' then parseUnsigned 1 rest
        else parseUnsigned 1 (c :: rest)) = _
    by_cases h1 : d == '-'
    · simp only [h1, if_pos]
      exact parseUnsigned_append_dot (-1) ds ys
    · by_cases h2 : d == '+'
      · simp only [h1, h2, if_neg, if_pos, Bool.false_eq_true]
        exact parseUnsigned_append_dot 1 ds ys
      · simp only [h1, h2, if_neg, Bool.false_eq_true]
        exact parseUnsigned_append_dot 1 (d :: ds) ys

/-- The fractional part of a decimal input never influences `parseInt`:
the parse of `s ++ "." ++ r` is the parse of `s` (truncation toward zero
rather than rounding or flooring). -/
lemma jsParseInt_trunc (s r : String) :
    jsParseInt (s ++ "." ++ r) = jsParseInt s := by
  unfold jsParseInt
  have hdata : (s ++ "." ++ r).data = s.data ++ '.' :: r.data := by
    rw [String.data_append, String.data_append,
      show (("." : String)).data = ['.'] from rfl, List.append_assoc]
    rfl
  rw [hdata]
  exact jsParseIntChars_append_dot s.data r.data

/-! ## Helper lemmas: the read-only guard and the query handler -/

lemma queryHandler_reject (q : String) (pool : Pool)
    (h : jsStartsWith (jsToLower (jsTrim q)) "select" = false) :
    queryHandler (QueryField.str q) pool =
      (⟨400, [("success", Json.bool false),
              ("error", Json.str "Only SELECT queries are allowed")]⟩, []) := by
  simp only [queryHandler, h, Bool.false_eq_true, if_false]

lemma queryHandler_forward (q : String) (pool : Pool)
    (h : jsStartsWith (jsToLower (jsTrim q)) "select" = true) :
    (queryHandler (QueryField.str q) pool).2 = [(q, [])] := by
  simp only [queryHandler, h, if_true]
  cases hp : pool q [] <;> simp [hp]

lemma effParam_none_100 : effParam none 100 = JSParam.int 100 := rfl

lemma effParam_none_0 : effParam none 0 = JSParam.int 0 := rfl

lemma effParam_empty (d : Nat) :
    effParam (some "") d = effParam none d := rfl

lemma effParam_shape (q : Option String) (d : Nat) :
    effParam q d = JSParam.nan ∨ ∃ n, effParam q d = JSParam.int n := by
  unfold effParam jsParseInt
  exact jsParseIntChars_shape _

/-! ## Helper lemmas: the paged table-data handler over the one-table pool -/

lemma tableDataHandler_tablePool (t : String) (rows : List Row)
    (lq oq : Option String) (l o : Nat)
    (hl : effParam lq 100 = JSParam.int l) (ho : effParam oq 0 = JSParam.int o) :
    tableDataHandler t lq oq (tablePool t rows) =
      (⟨200, [("success", Json.bool true), ("table", Json.str t),
              ("total", Json.int rows.length),
              ("count", Json.int ((rows.drop o).take l).length),
              ("data", Json.arr (((rows.drop o).take l).map Json.obj))]⟩,
       [(qSelectSQL t, [JSParam.int l, JSParam.int o]), (qCountSQL t, [])]) := by
  have hpage : tablePool t rows (qSelectSQL t) [JSParam.int l, JSParam.int o]
      = .ok ((rows.drop o).take l) := by
    rw [tablePool_select]
    unfold pageFor
    simp [Int.toNat_natCast]
  simp only [tableDataHandler, hl, ho, hpage, tablePool_count]
  simp [objGet]

/-! ## Helper lemma: a fixed-table shortcut refines the paged operation -/

lemma fixedTable_matches_paged (t : String) :
    shortcutMatchesPaged (fixedTableHandler t) t := by
  intro rows lq
  have ho : effParam none 0 = JSParam.int 0 := rfl
  rcases effParam_shape lq 100 with h | ⟨n, h⟩
  · have h1 : tablePool t rows (qLimitSQL t) [JSParam.nan] =
        .error "Incorrect arguments to mysqld_stmt_execute" := by
      rw [tablePool_limit]; rfl
    have h2 : tablePool t rows (qSelectSQL t) [JSParam.nan, JSParam.int 0] =
        .error "Incorrect arguments to mysqld_stmt_execute" := by
      rw [tablePool_select]; rfl
    simp only [fixedTableHandler, tableDataHandler, h, ho, h1, h2]
    simp [Resp.find, err500]
  · by_cases hn : n < 0
    · have h1 : tablePool t rows (qLimitSQL t) [JSParam.int n] =
          .error "You have an error in your SQL syntax" := by
        rw [tablePool_limit]; unfold takeFor; simp [hn]
      have h2 : tablePool t rows (qSelectSQL t) [JSParam.int n, JSParam.int 0] =
          .error "You have an error in your SQL syntax" := by
        rw [tablePool_select]; unfold pageFor; simp [hn]
      simp only [fixedTableHandler, tableDataHandler, h, ho, h1, h2]
      simp [Resp.find, err500]
    · have h1 : tablePool t rows (qLimitSQL t) [JSParam.int n] =
          .ok (rows.take n.toNat) := by
        rw [tablePool_limit]; unfold takeFor; simp [hn]
      have h2 : tablePool t rows (qSelectSQL t) [JSParam.int n, JSParam.int 0] =
          .ok (rows.take n.toNat) := by
        rw [tablePool_select]; unfold pageFor; simp [hn]
      simp only [fixedTableHandler, tableDataHandler, h, ho, h1, h2,
        tablePool_count]
      simp [Resp.find]

/-! ## Helper lemmas: count = length of the returned array, per handler -/

lemma tablesHandler_countMatches (pool : Pool)
    (h : Resp.find (tablesHandler pool).1 "success" = some (Json.bool true)) :
    countMatchesField (tablesHandler pool).1 "tables" := by
  cases hp : pool "SHOW TABLES" [] with
  | ok rows =>
    refine ⟨rows.map rowFirstVal, ?_, ?_⟩ <;>
      simp [tablesHandler, hp, Resp.find]
  | error e => simp [tablesHandler, hp, Resp.find, err500] at h

lemma queryHandler_countMatches (q : String) (pool : Pool)
    (h : Resp.find (queryHandler (QueryField.str q) pool).1 "success"
      = some (Json.bool true)) :
    countMatchesField (queryHandler (QueryField.str q) pool).1 "data" := by
  cases hg : jsStartsWith (jsToLower (jsTrim q)) "select" with
  | false =>
    rw [queryHandler_reject q pool hg] at h
    simp [Resp.find] at h
  | true =>
    cases hp : pool q [] with
    | ok rows =>
      refine ⟨rows.map Json.obj, ?_, ?_⟩ <;>
        simp [queryHandler, hg, hp, Resp.find]
    | error e => simp [queryHandler, hg, hp, Resp.find, err500] at h

lemma fixedTableHandler_countMatches (t : String) (lq : Option String)
    (pool : Pool)
    (h : Resp.find (fixedTableHandler t lq pool).1 "success"
      = some (Json.bool true)) :
    countMatchesField (fixedTableHandler t lq pool).1 "data" := by
  cases hp : pool (qLimitSQL t) [effParam lq 100] with
  | ok rows =>
    refine ⟨rows.map Json.obj, ?_, ?_⟩ <;>
      simp [fixedTableHandler, hp, Resp.find]
  | error e => simp [fixedTableHandler, hp, Resp.find, err500] at h

lemma tableDataHandler_countMatches (t : String) (lq oq : Option String)
    (pool : Pool)
    (h : Resp.find (tableDataHandler t lq oq pool).1 "success"
      = some (Json.bool true)) :
    countMatchesField (tableDataHandler t lq oq pool).1 "data" := by
  cases hp1 : pool (qSelectSQL t) [effParam lq 100, effParam oq 0] with
  | error e => simp [tableDataHandler, hp1, Resp.find, err500] at h
  | ok rows =>
    cases hp2 : pool (qCountSQL t) [] with
    | error e => simp [tableDataHandler, hp1, hp2, Resp.find, err500] at h
    | ok cr =>
      cases cr with
      | nil => simp [tableDataHandler, hp1, hp2, Resp.find, err500] at h
      | cons cr0 crs =>
        refine ⟨rows.map Json.obj, ?_, ?_⟩ <;>
          simp [tableDataHandler, hp1, hp2, Resp.find]

lemma databasesHandler_countMatches (pool : Pool)
    (h : Resp.find (databasesHandler pool).1 "success" = some (Json.bool true)) :
    countMatchesField (databasesHandler pool).1 "databases" := by
  cases hp : pool "SHOW DATABASES" [] with
  | ok rows =>
    refine ⟨rows.map rowFirstVal, ?_, ?_⟩ <;>
      simp [databasesHandler, hp, Resp.find]
  | error e => simp [databasesHandler, hp, Resp.find, err500] at h

lemma dbTablesHandler_countMatches (db : String) (pool : Pool)
    (h : Resp.find (dbTablesHandler db pool).1 "success" = some (Json.bool true)) :
    countMatchesField (dbTablesHandler db pool).1 "tables" := by
  cases hp : pool (qShowTablesSQL db) [] with
  | ok rows =>
    refine ⟨rows.map rowFirstVal, ?_, ?_⟩ <;>
      simp [dbTablesHandler, hp, Resp.find]
  | error e => simp [dbTablesHandler, hp, Resp.find, err500] at h

lemma dbTableDataHandler_countMatches (db t : String) (lq oq : Option String)
    (pool : Pool)
    (h : Resp.find (dbTableDataHandler db t lq oq pool).1 "success"
      = some (Json.bool true)) :
    countMatchesField (dbTableDataHandler db t lq oq pool).1 "data" := by
  cases hp1 : pool (qDbSelectSQL db t) [effParam lq 100, effParam oq 0] with
  | error e => simp [dbTableDataHandler, hp1, Resp.find, err500] at h
  | ok rows =>
    cases hp2 : pool (qDbCountSQL db t) [] with
    | error e => simp [dbTableDataHandler, hp1, hp2, Resp.find, err500] at h
    | ok cr =>
      cases cr with
      | nil => simp [dbTableDataHandler, hp1, hp2, Resp.find, err500] at h
      | cons cr0 crs =>
        refine ⟨rows.map Json.obj, ?_, ?_⟩ <;>
          simp [dbTableDataHandler, hp1, hp2, Resp.find]

/-! ## Claims -/

/-- C1: for every query string Q whose trimmed, lowercased form does not
start with "select", POST /query returns the 400 envelope with
success=false and the explanatory message, and issues zero queries against
the database. -/
theorem c1_non_select_rejected_no_query (q : String) (pool : Pool)
    (h : jsStartsWith (jsToLower (jsTrim q)) "select" = false) :
    queryHandler (QueryField.str q) pool =
      (⟨400, [("success", Json.bool false),
              ("error", Json.str "Only SELECT queries are allowed")]⟩, []) :=
  queryHandler_reject q pool h

/-- Witness for C1 at the concrete statement "DROP TABLE orders". -/
theorem c1_non_select_rejected_no_query_witness :
    queryHandler (QueryField.str "DROP TABLE orders") (errPool "unused") =
      (⟨400, [("success", Json.bool false),
              ("error", Json.str "Only SELECT queries are allowed")]⟩, []) :=
  c1_non_select_rejected_no_query "DROP TABLE orders" (errPool "unused")
    (by decide)

/-- C3: for every query string Q whose trimmed, lowercased form does start
with "select", POST /query forwards Q itself — not the trimmed or
lowercased copy — as the one and only query issued, with no bound
parameters. -/
theorem c3_select_forwarded_unmodified (q : String) (pool : Pool)
    (h : jsStartsWith (jsToLower (jsTrim q)) "select" = true) :
    (queryHandler (QueryField.str q) pool).2 = [(q, [])] :=
  queryHandler_forward q pool h

/-- Witness for C3: mixed case and surrounding whitespace pass the guard
and the original text is forwarded untouched. -/
theorem c3_select_forwarded_unmodified_witness :
    (queryHandler (QueryField.str "  SeLeCt * FROM deal  ")
        (okPool sampleRows)).2 = [("  SeLeCt * FROM deal  ", [])] :=
  c3_select_forwarded_unmodified "  SeLeCt * FROM deal  " (okPool sampleRows)
    (by decide)

/-- C2 (code_bug evidence): the source performs no identifier validation.
The injection payload "deal; DROP TABLE deal" fails the spec's allow-list
pattern, yet the structure handler interpolates it into the SQL text and
issues that query (one query, not the required zero); likewise the
multi-database list-tables handler with a backtick-breaking database name. -/
theorem c2_identifier_not_validated (pool : Pool) :
    specIdentOk "deal; DROP TABLE deal" = false ∧
    (structureHandler "deal; DROP TABLE deal" pool).2 =
      [("DESCRIBE deal; DROP TABLE deal", [])] ∧
    specIdentOk "x` -- " = false ∧
    (dbTablesHandler "x` -- " pool).2 = [("SHOW TABLES FROM `x` -- `", [])] := by
  refine ⟨by decide, ?_, by decide, ?_⟩
  · cases hp : pool "DESCRIBE deal; DROP TABLE deal" [] <;>
      simp [structureHandler, hp, qDescribeSQL]
  · cases hp : pool "SHOW TABLES FROM `x` -- `" [] <;>
      simp [dbTablesHandler, hp, qShowTablesSQL]

/-- C4 counterexample: with limit input "abc", the first bound parameter
the paged handler sends is `NaN` — not an integer (and not the default
100). -/
theorem c4_counterexample_nan_limit :
    ((tableDataHandler "orders" (some "abc") none (okPool sampleRows)).2.head?.map
        (fun q => q.2) = some [JSParam.nan, JSParam.int 0]) ∧
    ¬ ∃ n : Int, effParam (some "abc") 100 = JSParam.int n := by
  constructor
  · rfl
  · rintro ⟨n, hn⟩
    rw [show effParam (some "abc") 100 = JSParam.nan from rfl] at hn
    simp at hn

/-- C4 amended: the bound limit/offset parameters are always the
`parseInt` coercions (never a raw string): missing and empty inputs
default to 100 and 0, numeric text is truncated toward zero (the
fractional part never influences the parse), and non-numeric text yields
`NaN` rather than an integer. -/
theorem c4_amended_coercion (t : String) (lq oq : Option String)
    (pool : Pool) :
    ((tableDataHandler t lq oq pool).2.head?.map (fun q => q.2)
      = some [effParam lq 100, effParam oq 0]) ∧
    (∀ (q : Option String) (d : Nat) (s : String),
      effParam q d ≠ JSParam.str s) ∧
    (effParam none 100 = JSParam.int 100 ∧ effParam none 0 = JSParam.int 0 ∧
      effParam (some "") 100 = JSParam.int 100 ∧
      effParam (some "") 0 = JSParam.int 0) ∧
    (∀ s r : String, jsParseInt (s ++ "." ++ r) = jsParseInt s) ∧
    (jsParseInt "12.9" = JSParam.int 12 ∧
      jsParseInt "-12.9" = JSParam.int (-12)) := by
  refine ⟨?_, fun q d s => effParam_not_str q d s, ⟨rfl, rfl, rfl, rfl⟩,
    jsParseInt_trunc, by decide⟩
  cases hp1 : pool (qSelectSQL t) [effParam lq 100, effParam oq 0] with
  | error e => simp [tableDataHandler, hp1]
  | ok rows =>
    cases hp2 : pool (qCountSQL t) [] with
    | error e => simp [tableDataHandler, hp1, hp2]
    | ok cr => cases cr <;> simp [tableDataHandler, hp1, hp2]

/-- Witness for C4's amended claim at concrete numeric inputs. -/
theorem c4_amended_coercion_witness :
    (tableDataHandler "orders" (some "7") (some "2")
        (okPool sampleRows)).2.head?.map (fun q => q.2)
      = some [JSParam.int 7, JSParam.int 2] :=
  (c4_amended_coercion "orders" (some "7") (some "2") (okPool sampleRows)).1

/-- C5 counterexample: the health handler's error envelope carries no
success field at all (it uses status/message/error instead), so not every
handler's failure envelope includes success=false. -/
theorem c5_counterexample_health_no_success :
    Resp.find (healthHandler "2026-10-12T00:00:00.000Z"
        (errPool "Connection lost")).1 "success" = none := rfl

/-- C5 amended: every handler catches the database layer's execution error
and maps it to a structured failure envelope carrying the error's message
text; every handler except the health check returns the
status-500 success=false envelope with the message in its error field,
while the health check returns status=error with a fixed message and the
error text in a separate error field (no success field). -/
theorem c5_amended_error_envelopes (e now tn db tbl q : String)
    (lq oq : Option String) :
    ((healthHandler now (errPool e)).1 =
      ⟨500, [("status", Json.str "error"),
             ("message", Json.str "Database connection failed"),
             ("error", Json.str e)]⟩) ∧
    ((tablesHandler (errPool e)).1 = err500 e) ∧
    ((structureHandler tn (errPool e)).1 = err500 e) ∧
    ((tableDataHandler tn lq oq (errPool e)).1 = err500 e) ∧
    (jsStartsWith (jsToLower (jsTrim q)) "select" = true →
      (queryHandler (QueryField.str q) (errPool e)).1 = err500 e) ∧
    ((fixedTableHandler tbl lq (errPool e)).1 = err500 e) ∧
    ((databasesHandler (errPool e)).1 = err500 e) ∧
    ((dbTablesHandler db (errPool e)).1 = err500 e) ∧
    ((dbTableDataHandler db tn lq oq (errPool e)).1 = err500 e) ∧
    ((dbStructureHandler db tn (errPool e)).1 = err500 e) := by
  refine ⟨rfl, rfl, rfl, rfl, ?_, rfl, rfl, rfl, rfl, rfl⟩
  intro hq
  simp [queryHandler, hq, errPool]

/-- Witness for C5's amended claim: the guarded raw-query handler at a
concrete passing query and a concrete connection error. -/
theorem c5_amended_error_envelopes_witness :
    (queryHandler (QueryField.str "select 1") (errPool "Connection lost")).1 =
      err500 "Connection lost" :=
  (c5_amended_error_envelopes "Connection lost" "t" "orders" "shop" "deal"
    "select 1" none none).2.2.2.2.1 (by decide)

/-- C6 counterexample: a POST /query with no query field yields a caught
TypeError mapped to the 500 execution-error envelope — not the claimed
400-style ValidationError — though it does issue zero queries. -/
theorem c6_counterexample_missing_query_is_500 :
    (queryHandler QueryField.absent (okPool sampleRows)).1.status = 500 ∧
    Resp.find (queryHandler QueryField.absent (okPool sampleRows)).1 "error" =
      some (Json.str "Cannot read properties of undefined (reading 'trim')") ∧
    (queryHandler QueryField.absent (okPool sampleRows)).2 = [] :=
  ⟨rfl, rfl, rfl⟩

/-- C6 amended: missing or non-string query text throws a TypeError inside
the handler's try, caught and mapped to the 500 failure envelope with the
TypeError's message — never reaching the database; a present string that
fails the SELECT check gets the 400 validation envelope, also without
reaching the database. -/
theorem c6_invalid_query_text (pool : Pool) :
    (queryHandler QueryField.absent pool =
      (err500 "Cannot read properties of undefined (reading 'trim')", [])) ∧
    (queryHandler QueryField.nonString pool =
      (err500 "query.trim is not a function", [])) ∧
    (∀ q : String, jsStartsWith (jsToLower (jsTrim q)) "select" = false →
      queryHandler (QueryField.str q) pool =
        (⟨400, [("success", Json.bool false),
                ("error", Json.str "Only SELECT queries are allowed")]⟩, [])) :=
  ⟨rfl, rfl, fun q h => queryHandler_reject q pool h⟩

/-- Witness for C6's amended claim at a concrete non-SELECT statement. -/
theorem c6_invalid_query_text_witness :
    queryHandler (QueryField.str "DELETE FROM deal") (errPool "boom") =
      (⟨400, [("success", Json.bool false),
              ("error", Json.str "Only SELECT queries are allowed")]⟩, []) :=
  (c6_invalid_query_text (errPool "boom")).2.2 "DELETE FROM deal" (by decide)

/-- C7: for every valid table and integer limit/offset, the paged
table-data operation issues exactly two queries — the bounded select with
the two bound parameters and the COUNT(*) query, both built from the same
table name — and returns success with total = the exact table size,
count = the length of the returned page, and data = that page in natural
order. -/
theorem c7_two_roundtrips_count_total (t : String) (rows : List Row)
    (lq oq : Option String) (l o : Nat)
    (hl : effParam lq 100 = JSParam.int l) (ho : effParam oq 0 = JSParam.int o) :
    tableDataHandler t lq oq (tablePool t rows) =
      (⟨200, [("success", Json.bool true), ("table", Json.str t),
              ("total", Json.int rows.length),
              ("count", Json.int ((rows.drop o).take l).length),
              ("data", Json.arr (((rows.drop o).take l).map Json.obj))]⟩,
       [(qSelectSQL t, [JSParam.int l, JSParam.int o]), (qCountSQL t, [])]) :=
  tableDataHandler_tablePool t rows lq oq l o hl ho

/-- Witness for C7: the spec's end-to-end scenario — limit=2, offset=0 on
a 5-row table gives count=2, total=5 and the first two rows. -/
theorem c7_two_roundtrips_count_total_witness :
    tableDataHandler "orders" (some "2") (some "0")
        (tablePool "orders" sampleRows) =
      (⟨200, [("success", Json.bool true), ("table", Json.str "orders"),
              ("total", Json.int 5),
              ("count", Json.int 2),
              ("data", Json.arr [Json.obj [("id", Json.int 1)],
                                 Json.obj [("id", Json.int 2)]])]⟩,
       [(qSelectSQL "orders", [JSParam.int 2, JSParam.int 0]),
        (qCountSQL "orders", [])]) :=
  c7_two_roundtrips_count_total "orders" sampleRows (some "2") (some "0")
    2 0 rfl rfl

/-- C8: each fixed-table shortcut returns the same data, count and success
flag as the paged table-data operation on its hardcoded table with the
same limit and no offset, returns no total field, and issues the single
LIMIT query instead of the select/count pair. -/
theorem c8_shortcuts_equal_paged :
    shortcutMatchesPaged dealsHandler "deal" ∧
    shortcutMatchesPaged companiesHandler "company" ∧
    shortcutMatchesPaged contactsHandler "contact" ∧
    shortcutMatchesPaged leadsHandler "lead" :=
  ⟨fixedTable_matches_paged "deal", fixedTable_matches_paged "company",
   fixedTable_matches_paged "contact", fixedTable_matches_paged "lead"⟩

/-- C9: the paged table-data operation is deterministic in both variants —
two invocations with identical database, table, limit and offset against
the same unchanged pool return identical responses (hence identical row
sets and totals) and issue the same queries. -/
theorem c9_pagination_idempotent (t db : String) (lq oq : Option String)
    (pool : Pool) :
    (tableDataHandler t lq oq pool = tableDataHandler t lq oq pool) ∧
    (Resp.find (tableDataHandler t lq oq pool).1 "data" =
      Resp.find (tableDataHandler t lq oq pool).1 "data") ∧
    (Resp.find (tableDataHandler t lq oq pool).1 "total" =
      Resp.find (tableDataHandler t lq oq pool).1 "total") ∧
    (dbTableDataHandler db t lq oq pool = dbTableDataHandler db t lq oq pool) :=
  ⟨rfl, rfl, rfl, rfl⟩

/-- C10: in every success envelope carrying both a count field and a
collection — paged table data (both variants), raw query, fixed-table
shortcuts, list tables (both variants), list databases — the count equals
the length of the returned array. -/
theorem c10_count_matches_length :
    (∀ pool : Pool,
      Resp.find (tablesHandler pool).1 "success" = some (Json.bool true) →
      countMatchesField (tablesHandler pool).1 "tables") ∧
    (∀ (t : String) (lq oq : Option String) (pool : Pool),
      Resp.find (tableDataHandler t lq oq pool).1 "success"
        = some (Json.bool true) →
      countMatchesField (tableDataHandler t lq oq pool).1 "data") ∧
    (∀ (q : String) (pool : Pool),
      Resp.find (queryHandler (QueryField.str q) pool).1 "success"
        = some (Json.bool true) →
      countMatchesField (queryHandler (QueryField.str q) pool).1 "data") ∧
    (∀ (t : String) (lq : Option String) (pool : Pool),
      Resp.find (fixedTableHandler t lq pool).1 "success"
        = some (Json.bool true) →
      countMatchesField (fixedTableHandler t lq pool).1 "data") ∧
    (∀ pool : Pool,
      Resp.find (databasesHandler pool).1 "success" = some (Json.bool true) →
      countMatchesField (databasesHandler pool).1 "databases") ∧
    (∀ (db : String) (pool : Pool),
      Resp.find (dbTablesHandler db pool).1 "success" = some (Json.bool true) →
      countMatchesField (dbTablesHandler db pool).1 "tables") ∧
    (∀ (db t : String) (lq oq : Option String) (pool : Pool),
      Resp.find (dbTableDataHandler db t lq oq pool).1 "success"
        = some (Json.bool true) →
      countMatchesField (dbTableDataHandler db t lq oq pool).1 "data") :=
  ⟨tablesHandler_countMatches,
   fun t lq oq pool => tableDataHandler_countMatches t lq oq pool,
   queryHandler_countMatches,
   fixedTableHandler_countMatches,
   databasesHandler_countMatches,
   dbTablesHandler_countMatches,
   fun db t lq oq pool => dbTableDataHandler_countMatches db t lq oq pool⟩

/-- Witness for C10: every count-bearing handler at a concrete succeeding
pool. -/
theorem c10_count_matches_length_witness :
    countMatchesField (tablesHandler (okPool sampleRows)).1 "tables" ∧
    countMatchesField (tableDataHandler "orders" (some "2") none
        (okPool sampleRows)).1 "data" ∧
    countMatchesField (queryHandler (QueryField.str "select 1")
        (okPool sampleRows)).1 "data" ∧
    countMatchesField (fixedTableHandler "deal" none (okPool sampleRows)).1
      "data" ∧
    countMatchesField (databasesHandler (okPool sampleRows)).1 "databases" ∧
    countMatchesField (dbTablesHandler "shop" (okPool sampleRows)).1 "tables" ∧
    countMatchesField (dbTableDataHandler "shop" "orders" none none
        (okPool sampleRows)).1 "data" :=
  ⟨c10_count_matches_length.1 (okPool sampleRows) rfl,
   c10_count_matches_length.2.1 "orders" (some "2") none (okPool sampleRows) rfl,
   c10_count_matches_length.2.2.1 "select 1" (okPool sampleRows) rfl,
   c10_count_matches_length.2.2.2.1 "deal" none (okPool sampleRows) rfl,
   c10_count_matches_length.2.2.2.2.1 (okPool sampleRows) rfl,
   c10_count_matches_length.2.2.2.2.2.1 "shop" (okPool sampleRows) rfl,
   c10_count_matches_length.2.2.2.2.2.2 "shop" "orders" none none
     (okPool sampleRows) rfl⟩
